import Mathlib

/-!
Verification of the kv-evaluation rate-limiter repository.

The repository contains several benchmark programs, each implementing an
atomic check-and-increment rate limiter against a different backing store:

* garnet_lua.go     : a Lua script (checkAndIncrementScript) run server-side
                      on Redis/Garnet, wrapped by updateLimiterState7;
* tikv.go           : updateLimiterState8, a TiKV pessimistic transaction;
                      updateLimiterStateWithLock, a Redis SETNX mutex;
                      UpdateLimiterState3, a Redis WATCH/MULTI-EXEC optimistic
                      transaction; plus the benchmark main functions;
* olric_lock.go     : incrementWithLock, an Olric distributed-lock variant;
* unnamed/part_000  : updateLimiterState2, a Redis INCRBY pipeline variant;
                      updateLimiterState5, an Olric atomic-increment variant.

Counts and limits are Go int/int64 values operated far from the word size
(limits of 500-1000, increments of 1), so they are embedded as Int.
Store operations that can fail at runtime (network, quorum, decode) are
embedded by passing the operation's outcome explicitly; stored values that
may be absent are Option-valued.
-/

namespace KvEval

/-! ## Window model (tikv.go, unnamed/part_000) -/

/-- LimiterState2 from tikv.go: a single count with a maximum allowed count. -/
structure LimiterState2 where
  count : Int
  limit : Int
deriving Repr, DecidableEq

/-- SlidingWindow from tikv.go (third program): count, limit, start time. -/
structure SlidingWindow where
  count : Int
  limit : Int
  startTime : Int
deriving Repr, DecidableEq

/-- FixedWindow from tikv.go (third program): count, limit, start time. -/
structure FixedWindow where
  count : Int
  limit : Int
  startTime : Int
deriving Repr, DecidableEq

/-- LimiterState from tikv.go (third program): lists of sliding and fixed windows. -/
structure LimiterState where
  slidingWindows : List SlidingWindow
  fixedWindow : List FixedWindow
deriving Repr, DecidableEq

/-- The window list of a LimiterState as (count, limit) pairs, sliding windows
first, matching the order in which the Go code checks them. -/
def stateWindows (st : LimiterState) : List (Int × Int) :=
  st.slidingWindows.map (fun w => (w.count, w.limit))
    ++ st.fixedWindow.map (fun w => (w.count, w.limit))

/-- CheckAdmit as worded by the spec: true iff every window w in the state
satisfies w.count + amount ≤ w.limit.  (Spec-side definition, to be compared
with each strategy's inline check.) -/
def checkAdmitSpec (windows : List (Int × Int)) (amount : Int) : Bool :=
  windows.all (fun wl => wl.1 + amount ≤ wl.2)

/-! ## Atomic-Script strategy (garnet_lua.go) -/

/-- The limit3 constant of garnet_lua.go. -/
def limit3 : Int := 500

/-- The two Redis keys the Lua script operates on; None models an absent key. -/
structure GarnetKV where
  sliding : Option Int
  fixed : Option Int
deriving Repr, DecidableEq

/-- The Lua idiom `v and tonumber(v) or 0`: absent keys read as 0. -/
def luaGet (v : Option Int) : Int := v.getD 0

/-- The ordered triple the Lua script returns: both counter values and a
success flag (1 = incremented, 0 = limit would be exceeded). -/
structure LuaResult where
  sliding : Int
  fixed : Int
  success : Bool
deriving Repr, DecidableEq

/-- checkAndIncrementScript from garnet_lua.go, as the atomic state
transformation it performs server-side: read both counters (absent = 0),
reject if either would exceed the limit, otherwise INCRBY both. -/
def checkAndIncrement (kv : GarnetKV) (increment lim : Int) :
    LuaResult × GarnetKV :=
  let slidingVal := luaGet kv.sliding
  let fixedVal := luaGet kv.fixed
  if slidingVal + increment > lim ∨ fixedVal + increment > lim then
    (⟨slidingVal, fixedVal, false⟩, kv)
  else
    (⟨slidingVal + increment, fixedVal + increment, true⟩,
     ⟨some (slidingVal + increment), some (fixedVal + increment)⟩)

/-- updateLimiterState7 from garnet_lua.go: run the script with the limit3
constant; a failed script result surfaces as an error, otherwise nil. -/
def updateLimiterState7 (kv : GarnetKV) (tokens : Int) :
    Except String Unit × GarnetKV :=
  let r := checkAndIncrement kv tokens limit3
  if r.1.success then (.ok (), r.2)
  else (.error "rate limit3 exceeded", r.2)

/-- A sequence of committed updateLimiterState7 calls. -/
def garnetRun (ops : List Int) (kv : GarnetKV) : GarnetKV :=
  ops.foldl (fun s t => (updateLimiterState7 s t).2) kv

/-- Invariant of the Lua-script state: both persisted counters are at most
the limit (absent counters read as 0). -/
def garnetInv (kv : GarnetKV) : Prop :=
  luaGet kv.sliding ≤ limit3 ∧ luaGet kv.fixed ≤ limit3

instance (kv : GarnetKV) : Decidable (garnetInv kv) := by
  unfold garnetInv; infer_instance

/-! ## Pessimistic-Transaction strategy (tikv.go, updateLimiterState8)

One attempt of updateLimiterState8 runs inside one TiKV transaction.  We
record, for each attempt, what the external store operations return, and
trace which exit path the code takes and whether the transaction ends in a
commit or a rollback. -/

/-- What txn.Get(ctx, key) returns: a client error, or the value bytes
(nil when the key is absent, a decodable LimiterState2 otherwise; a decode
failure of present bytes is a separate outcome). -/
inductive TikvGetResult
  | err
  | corrupt
  | fromStore
deriving Repr, DecidableEq

/-- What txn.Commit(ctx) returns. -/
inductive TikvCommitResult
  | ok
  | writeConflict
  | otherErr
deriving Repr, DecidableEq

/-- Outcome of each external operation performed during one attempt of
updateLimiterState8 (json.Marshal of a LimiterState2 cannot fail in Go
and has no outcome field). -/
structure TikvAttemptEnv where
  beginOk : Bool
  lockOk : Bool
  getResult : TikvGetResult
  setOk : Bool
  commitResult : TikvCommitResult
deriving Repr, DecidableEq

/-- An environment in which every store operation succeeds. -/
def tikvCleanEnv : TikvAttemptEnv :=
  ⟨true, true, .fromStore, true, .ok⟩

/-- How the transaction of one attempt ended. -/
inductive TxnDisposition
  | noTxn
  | committed
  | rolledBack
deriving Repr, DecidableEq

/-- The value updateLimiterState8 produces for one attempt:
(limitReached, error) collapsed into one type, plus the retryable
write-conflict case the enclosing loop inspects. -/
inductive TikvResult
  | error (msg : String)
  | limitReached
  | success
  | commitConflict
deriving Repr, DecidableEq

/-- Result record of one attempt: the returned value, how the transaction
ended, and the stored value afterwards. -/
structure TikvAttemptOut where
  result : TikvResult
  disp : TxnDisposition
  store : Option LimiterState2
deriving Repr, DecidableEq

/-- One attempt (one loop iteration) of updateLimiterState8 from tikv.go:
begin a pessimistic transaction, lock the key, get and decode the state,
return limitReached (after rollback) when count ≥ limit, otherwise
increment the count, set, and commit.  Every failure path rolls back. -/
def updateLimiterState8Attempt (env : TikvAttemptEnv)
    (store : Option LimiterState2) : TikvAttemptOut :=
  if ¬env.beginOk then ⟨.error "begin txn failed", .noTxn, store⟩
  else if ¬env.lockOk then ⟨.error "failed to lock key", .rolledBack, store⟩
  else
    match env.getResult, store with
    | .err, _ => ⟨.error "failed to get current value", .rolledBack, store⟩
    | .corrupt, _ => ⟨.error "failed to decode JSON", .rolledBack, store⟩
    | .fromStore, none => ⟨.error "key not found", .rolledBack, store⟩
    | .fromStore, some state =>
      if state.count ≥ state.limit then ⟨.limitReached, .rolledBack, store⟩
      else
        let newState : LimiterState2 := ⟨state.count + 1, state.limit⟩
        if ¬env.setOk then ⟨.error "failed to set new value", .rolledBack, store⟩
        else
          match env.commitResult with
          | .ok => ⟨.success, .committed, some newState⟩
          | .writeConflict => ⟨.commitConflict, .rolledBack, store⟩
          | .otherErr => ⟨.error "transaction commit failed", .rolledBack, store⟩

/-- The store transition of one committed TiKV check-and-increment: the
stored value after an attempt in which every store operation succeeds. -/
def tikvStep (store : Option LimiterState2) : Option LimiterState2 :=
  (updateLimiterState8Attempt tikvCleanEnv store).store

/-- n committed updateLimiterState8 operations in sequence. -/
def tikvRun : Nat → Option LimiterState2 → Option LimiterState2
  | 0, store => store
  | n + 1, store => tikvStep (tikvRun n store)

/-- Invariant of the TiKV limiter state: the stored count never exceeds the
stored limit. -/
def tikvInv : Option LimiterState2 → Prop
  | none => True
  | some s => s.count ≤ s.limit

instance : (store : Option LimiterState2) → Decidable (tikvInv store)
  | none => .isTrue trivial
  | some s => inferInstanceAs (Decidable (s.count ≤ s.limit))

/-! ## INCRBY-pipeline strategy (unnamed/part_000, updateLimiterState2) -/

/-- The limit2 constant of the INCRBY program. -/
def limit2 : Int := 500

/-- The three window keys of updateLimiterState2; None models an absent key,
which the code reads as count 0. -/
structure Windows3 where
  w1 : Option Int
  w2 : Option Int
  w3 : Option Int
deriving Repr, DecidableEq

/-- updateLimiterState2 from unnamed/part_000 as one committed sequential
operation.  The three GETs share one pipeline and the read-back block is
guarded by the Exec error differing from redis.Nil: when any of the three
keys is absent, Exec returns redis.Nil, the block is skipped, and all
three counts keep their zero initialization, even for keys that are
present with larger stored values.  The INCRBY writes, by contrast, always
increment the true stored values (an absent key starts from 0). -/
def updateLimiterState2 (st : Windows3) (tokens : Int) :
    Except String Unit × Windows3 :=
  let allPresent := st.w1.isSome && st.w2.isSome && st.w3.isSome
  let window1Count := if allPresent then st.w1.getD 0 else 0
  let window2Count := if allPresent then st.w2.getD 0 else 0
  let window3Count := if allPresent then st.w3.getD 0 else 0
  if window1Count + tokens > limit2 ∨ window2Count + tokens > limit2 ∨
      window3Count + tokens > limit2 then
    (.error "rate limit exceeded", st)
  else
    (.ok (), ⟨some (st.w1.getD 0 + tokens), some (st.w2.getD 0 + tokens),
              some (st.w3.getD 0 + tokens)⟩)

/-- A sequence of committed updateLimiterState2 calls. -/
def incrbyRun (ops : List Int) (st : Windows3) : Windows3 :=
  ops.foldl (fun s t => (updateLimiterState2 s t).2) st

/-- Invariant of the three-window INCRBY state: every persisted count is at
most limit2 (absent counters read as 0). -/
def windows3Inv (st : Windows3) : Prop :=
  st.w1.getD 0 ≤ limit2 ∧ st.w2.getD 0 ≤ limit2 ∧ st.w3.getD 0 ≤ limit2

instance (st : Windows3) : Decidable (windows3Inv st) := by
  unfold windows3Inv; infer_instance

/-- All three window keys are present in the store, so the pipeline
read-back of updateLimiterState2 is not skipped. -/
def windows3AllPresent (st : Windows3) : Prop :=
  st.w1.isSome = true ∧ st.w2.isSome = true ∧ st.w3.isSome = true

instance (st : Windows3) : Decidable (windows3AllPresent st) := by
  unfold windows3AllPresent; infer_instance

/-! ## Optimistic WATCH strategy (tikv.go, UpdateLimiterState3)

UpdateLimiterState3 wraps one WATCH attempt in an unconditional retry loop:
the closure returns redis.TxFailedErr both when a window limit check fails
and when the watched key changed under the EXEC, and the loop continues
exactly on that error value. -/

/-- Increase every window count of a LimiterState by tokens (the two update
loops shared by UpdateLimiterState3 and updateLimiterStateWithLock). -/
def applyTokens (st : LimiterState) (tokens : Int) : LimiterState :=
  ⟨st.slidingWindows.map (fun w => { w with count := w.count + tokens }),
   st.fixedWindow.map (fun w => { w with count := w.count + tokens })⟩

/-- What one WATCH closure invocation returns to the enclosing loop. -/
inductive Update3Outcome
  | txFailed
  | ok (newState : LimiterState)
  | err (msg : String)
deriving Repr, DecidableEq

/-- One WATCH attempt of UpdateLimiterState3: read the state (absent key
yields the default state with empty window lists; getErr models a network
error, corrupt a decode failure of a present value), return TxFailedErr if
any window's limit check fails, otherwise write the incremented state;
a concurrent change of the watched key (conflict) also surfaces as
TxFailedErr from the EXEC. -/
def update3Attempt (getErr corrupt conflict : Bool)
    (store : Option LimiterState) (tokens : Int) : Update3Outcome :=
  if getErr then .err "redis get error"
  else
    let decoded : Except String LimiterState :=
      match store with
      | none => .ok ⟨[], []⟩
      | some st => if corrupt then .error "unmarshal error" else .ok st
    match decoded with
    | .error m => .err m
    | .ok state =>
      if state.slidingWindows.any (fun w => w.count + tokens > w.limit) then
        .txFailed
      else if state.fixedWindow.any (fun w => w.count + tokens > w.limit) then
        .txFailed
      else if conflict then .txFailed
      else .ok (applyTokens state tokens)

/-- The loop classification in UpdateLimiterState3: continue exactly when the
attempt returned redis.TxFailedErr. -/
def update3ShouldRetry : Update3Outcome → Bool
  | .txFailed => true
  | .ok _ => false
  | .err _ => false

/-- What UpdateLimiterState3 returns to its caller once the loop exits. -/
inductive Update3Ret
  | committed (newState : LimiterState)
  | failed (msg : String)
deriving Repr, DecidableEq

/-- The retry loop of UpdateLimiterState3, driven by the sequence of attempt
outcomes, observed for a bounded number of iterations: scan outcomes from
index i; none means the loop is still running after the given number of
iterations. -/
def update3RunFrom (outcomes : Nat → Update3Outcome) :
    Nat → Nat → Option Update3Ret
  | _, 0 => none
  | i, fuel + 1 =>
    match outcomes i with
    | .txFailed => update3RunFrom outcomes (i + 1) fuel
    | .ok st => some (.committed st)
    | .err m => some (.failed m)

/-- UpdateLimiterState3's loop observed for n iterations from the start. -/
def update3Run (outcomes : Nat → Update3Outcome) (n : Nat) :
    Option Update3Ret :=
  update3RunFrom outcomes 0 n

/-! ## Distributed-Mutex strategy, Olric variant (olric_lock.go) -/

/-- The limit constant of olric_lock.go. -/
def olricLimit : Int := 1000

/-- Outcomes of the external operations of one incrementWithLock call. -/
structure IncrEnv where
  lockOk : Bool
  getErr : Bool
  putErr : Bool
deriving Repr, DecidableEq

/-- An environment in which every operation of incrementWithLock succeeds. -/
def incrCleanEnv : IncrEnv := ⟨true, false, false⟩

/-- What incrementWithLock returns. -/
inductive IncrResult
  | lockFailed
  | error (msg : String)
  | rejected
  | ok
deriving Repr, DecidableEq

/-- Result record of one incrementWithLock call: the returned value, the
stored counter afterwards, and whether the read-check-write critical section
was entered at all. -/
structure IncrOut where
  result : IncrResult
  store : Option Int
  enteredCritical : Bool
deriving Repr, DecidableEq

/-- incrementWithLock from olric_lock.go: acquire the lock (a timeout
returns before the critical section), read the counter (absent = 0), reject
if the amount would exceed the limit, otherwise put the incremented value. -/
def incrementWithLock (env : IncrEnv) (store : Option Int) (amount : Int) :
    IncrOut :=
  if ¬env.lockOk then ⟨.lockFailed, store, false⟩
  else if env.getErr then ⟨.error "failed to get value", store, true⟩
  else
    let currentCount := store.getD 0
    if currentCount + amount > olricLimit then ⟨.rejected, store, true⟩
    else if env.putErr then ⟨.error "failed to put new value", store, true⟩
    else ⟨.ok, some (currentCount + amount), true⟩

/-! ## Distributed-Mutex strategy, Redis SETNX variant
(tikv.go, updateLimiterStateWithLock) -/

/-- What one SET NX attempt of the lock-acquisition loop observes. -/
inductive AcqOutcome
  | ok
  | busy
  | fatalErr
  | cancelled
deriving Repr, DecidableEq

/-- How the acquisition phase ends: proceed into the critical section, or
return an error to the caller. -/
inductive AcqResult
  | proceed
  | failed (msg : String)
deriving Repr, DecidableEq

/-- The lock-acquisition loop of updateLimiterStateWithLock, scanning attempt
outcomes from index i with the given number of attempts remaining: success
breaks out of the loop, a non-Nil error or a cancelled context returns, a
busy lock backs off and retries; when the attempt budget is exhausted the
loop simply ends and the code after it runs (there is no check that the
lock was ever obtained). -/
def acquireLoopFrom (outcomes : Nat → AcqOutcome) : Nat → Nat → AcqResult
  | _, 0 => .proceed
  | i, fuel + 1 =>
    match outcomes i with
    | .ok => .proceed
    | .fatalErr => .failed "failed to acquire lock"
    | .cancelled => .failed "context cancelled while waiting for lock"
    | .busy => acquireLoopFrom outcomes (i + 1) fuel

/-- The full acquisition phase: maxRetries = 5 attempts. -/
def acquireLock (outcomes : Nat → AcqOutcome) : AcqResult :=
  acquireLoopFrom outcomes 0 5

/-- The default LimiterState built when the rate-limit key is absent:
one sliding and one fixed window, each 0/500, started now. -/
def defaultLockState (now : Int) : LimiterState :=
  ⟨[⟨0, 500, now⟩], [⟨0, 500, now⟩]⟩

/-- The read-check-write critical section of updateLimiterStateWithLock:
read the state (absent key yields the default state), veto if any window's
limit check fails, otherwise write every counter incremented. -/
def mutexCritical (getErr corrupt putOk : Bool) (now : Int)
    (store : Option LimiterState) (tokens : Int) :
    Except String Unit × Option LimiterState :=
  if getErr then (.error "redis get error", store)
  else
    let decoded : Except String LimiterState :=
      match store with
      | none => .ok (defaultLockState now)
      | some st => if corrupt then .error "unmarshal error" else .ok st
    match decoded with
    | .error m => (.error m, store)
    | .ok state =>
      if state.slidingWindows.any (fun w => w.count + tokens > w.limit) then
        (.error "sliding window limit exceeded", store)
      else if state.fixedWindow.any (fun w => w.count + tokens > w.limit) then
        (.error "fixed window limit exceeded", store)
      else if putOk then (.ok (), some (applyTokens state tokens))
      else (.error "redis set error", store)

/-- Result record of one updateLimiterStateWithLock call. -/
structure MutexCallOut where
  result : Except String Unit
  store : Option LimiterState
  executedCritical : Bool
deriving Repr

/-- updateLimiterStateWithLock from tikv.go: run the acquisition loop, then
(unless the loop returned) run the critical section. -/
def updateLimiterStateWithLock (acq : Nat → AcqOutcome)
    (getErr corrupt putOk : Bool) (now : Int)
    (store : Option LimiterState) (tokens : Int) : MutexCallOut :=
  match acquireLock acq with
  | .failed m => ⟨.error m, store, false⟩
  | .proceed =>
    let r := mutexCritical getErr corrupt putOk now store tokens
    ⟨r.1, r.2, true⟩

/-! ## Olric atomic-increment strategy (unnamed/part_000, updateLimiterState5)

Each loop iteration performs up to four DMap operations (two Gets, two
Incrs); ErrWriteQuorum on any of them sleeps and retries the whole
iteration, any other error returns.  A failed Incr is modelled as not
applied; its effect is not observed by the client either way, and no
theorem below depends on that choice. -/

/-- Outcome of one DMap operation in updateLimiterState5. -/
inductive OpOutcome
  | ok
  | quorumErr
  | otherErr
deriving Repr, DecidableEq

/-- Outcomes of the four DMap operations of one loop iteration. -/
structure U5Env where
  getSliding : OpOutcome
  getFixed : OpOutcome
  incrSliding : OpOutcome
  incrFixed : OpOutcome
deriving Repr, DecidableEq

/-- An iteration environment in which every DMap operation succeeds. -/
def u5CleanEnv : U5Env := ⟨.ok, .ok, .ok, .ok⟩

/-- The two counters updateLimiterState5 operates on; None models an absent
key, which the code reads as count 0. -/
structure U5State where
  sliding : Option Int
  fixed : Option Int
deriving Repr, DecidableEq

/-- What updateLimiterState5 returns. -/
inductive U5Result
  | rejected (s f : Int)
  | failed (msg : String)
  | success
  | retriesExhausted
deriving Repr, DecidableEq

/-- How one loop iteration ends: return a result, or sleep and retry with
the (possibly partially incremented) store. -/
inductive U5Step
  | done (r : U5Result) (st : U5State)
  | retry (st : U5State)
deriving Repr, DecidableEq

/-- One loop iteration of updateLimiterState5: read both counters (absent =
0), reject if either would exceed 500, then Incr the sliding and the fixed
counter in that order; a quorum error anywhere retries the iteration, in
particular after the sliding Incr already succeeded. -/
def update5Iteration (env : U5Env) (st : U5State) (tokens : Int) : U5Step :=
  match env.getSliding with
  | .quorumErr => .retry st
  | .otherErr => .done (.failed "failed to get sliding window count") st
  | .ok =>
  match env.getFixed with
  | .quorumErr => .retry st
  | .otherErr => .done (.failed "failed to get fixed window count") st
  | .ok =>
    let slidingCount := st.sliding.getD 0
    let fixedCount := st.fixed.getD 0
    if slidingCount + tokens > 500 ∨ fixedCount + tokens > 500 then
      .done (.rejected slidingCount fixedCount) st
    else
      match env.incrSliding with
      | .quorumErr => .retry st
      | .otherErr => .done (.failed "failed to increment sliding window") st
      | .ok =>
        let st1 : U5State := ⟨some (slidingCount + tokens), st.fixed⟩
        match env.incrFixed with
        | .quorumErr => .retry st1
        | .otherErr =>
          .done (.failed "failed to increment fixed window") st1
        | .ok => .done .success ⟨st1.sliding, some (fixedCount + tokens)⟩

/-- The retry loop of updateLimiterState5, scanning iteration environments
from index i with the given retry budget remaining. -/
def update5LoopFrom (envs : Nat → U5Env) (tokens : Int) :
    Nat → Nat → U5State → U5Result × U5State
  | _, 0, st => (.retriesExhausted, st)
  | i, fuel + 1, st =>
    match update5Iteration (envs i) st tokens with
    | .done r st' => (r, st')
    | .retry st' => update5LoopFrom envs tokens (i + 1) fuel st'

/-- updateLimiterState5 from unnamed/part_000: maxRetries = 5 iterations. -/
def updateLimiterState5 (envs : Nat → U5Env) (st : U5State) (tokens : Int) :
    U5Result × U5State :=
  update5LoopFrom envs tokens 0 5 st

/-! ## Benchmark statistics phase
(main in tikv.go, main8 in garnet_lua.go, main7 in unnamed/part_000, main3
in tikv.go: all four share the same statistics code)

Latencies are time.Duration values, i.e. int64 nanosecond counts, embedded
as Int.  The p95 index int(float64(count) * 0.95) is embedded as the exact
floor (count * 95) / 100; the float64 computation coincides with the exact
floor for every count reachable here, since 19*count/20 is never within
rounding error of a smaller integer.  Indexing the sorted slice can panic
(empty sample set) and the mean divides by the sample count, so the phase
is embedded as an Option; in the source the p95 indexing precedes the
division, so the indexing is the guard that fails first. -/

/-- time.Hour in nanoseconds, the initial value of minLatency. -/
def timeHour : Int := 3600 * 1000000000

/-- The figures the statistics phase reports. -/
structure TestStats where
  count : Nat
  totalLatency : Int
  minLatency : Int
  maxLatency : Int
  avgLatency : Int
  p95Latency : Int
deriving Repr, DecidableEq

/-- The statistics phase shared by all the benchmark main functions: drain
the latency channel accumulating total / count / max (from 0) / min (from
one hour), sort ascending, index the p95 element, and divide for the mean. -/
def computeStats (latencies : List Int) : Option TestStats :=
  let count := latencies.length
  let totalLatency := latencies.foldl (· + ·) 0
  let maxLatency := latencies.foldl (fun m l => if l > m then l else m) 0
  let minLatency := latencies.foldl (fun m l => if l < m then l else m) timeHour
  let sorted := List.insertionSort (· ≤ ·) latencies
  let p95Index := count * 95 / 100
  match sorted[p95Index]? with
  | none => none
  | some p95Latency =>
    some ⟨count, totalLatency, minLatency, maxLatency,
          totalLatency / (count : Int), p95Latency⟩

/-! ## Helper lemmas -/

/-- One committed updateLimiterState7 call preserves the Lua-script
invariant. -/
theorem garnetStep_inv (kv : GarnetKV) (t : Int) (h : garnetInv kv) :
    garnetInv (updateLimiterState7 kv t).2 := by
  simp only [updateLimiterState7, checkAndIncrement]
  split_ifs with hov hs <;> simp_all [garnetInv, luaGet]

/-- One committed TiKV attempt preserves the count-at-most-limit
invariant. -/
theorem tikvStep_inv (store : Option LimiterState2) (h : tikvInv store) :
    tikvInv (tikvStep store) := by
  unfold tikvStep updateLimiterState8Attempt tikvCleanEnv
  cases store with
  | none => simp [tikvInv]
  | some s =>
    simp only [tikvInv] at h
    simp [tikvStep, updateLimiterState8Attempt, tikvCleanEnv]
    split_ifs with hge
    · simpa [tikvInv] using h
    · simp only [tikvInv]
      omega

/-- One committed updateLimiterState2 call from a state with all three
keys present reads the true counts, so it preserves both presence and the
three-window invariant. -/
theorem incrbyStep_inv (st : Windows3) (t : Int)
    (hp : windows3AllPresent st) (h : windows3Inv st) :
    windows3AllPresent (updateLimiterState2 st t).2 ∧
    windows3Inv (updateLimiterState2 st t).2 := by
  obtain ⟨hp1, hp2, hp3⟩ := hp
  obtain ⟨h1, h2, h3⟩ := h
  unfold updateLimiterState2
  simp only [hp1, hp2, hp3, Bool.and_self, if_true]
  by_cases hov : st.w1.getD 0 + t > limit2 ∨ st.w2.getD 0 + t > limit2 ∨
      st.w3.getD 0 + t > limit2
  · simp only [if_pos hov]
    exact ⟨⟨hp1, hp2, hp3⟩, h1, h2, h3⟩
  · simp only [if_neg hov]
    push_neg at hov
    refine ⟨⟨rfl, rfl, rfl⟩, ?_, ?_, ?_⟩ <;>
      simp [windows3Inv] <;> omega

/-- Scanning past n consecutive TxFailed outcomes. -/
theorem update3RunFrom_skip (outcomes : Nat → Update3Outcome) :
    ∀ (n i fuel : Nat), (∀ m, m < n → outcomes (i + m) = .txFailed) →
      update3RunFrom outcomes i (n + fuel) = update3RunFrom outcomes (i + n) fuel := by
  intro n
  induction n with
  | zero => intro i fuel _; simp
  | succ k ih =>
    intro i fuel hall
    have h0 : outcomes i = .txFailed := by simpa using hall 0 (Nat.succ_pos k)
    have hstep : update3RunFrom outcomes i ((k + fuel) + 1) =
        update3RunFrom outcomes (i + 1) (k + fuel) := by
      rw [update3RunFrom, h0]
    have harith : (k + 1) + fuel = (k + fuel) + 1 := by omega
    rw [harith, hstep, ih (i + 1) fuel (fun m hm => by
      have h2 := hall (m + 1) (by omega)
      rwa [show i + (m + 1) = i + 1 + m by omega] at h2)]
    congr 1
    omega

/-- A run consisting only of TxFailed outcomes never returns. -/
theorem update3RunFrom_txFailed_none :
    ∀ (fuel i : Nat), update3RunFrom (fun _ => .txFailed) i fuel = none := by
  intro fuel
  induction fuel with
  | zero => intro i; rfl
  | succ k ih => intro i; rw [update3RunFrom]; exact ih (i + 1)

/-- The p95 index is a valid index of any non-empty latency list. -/
theorem p95Index_lt (n : Nat) (h : 0 < n) : n * 95 / 100 < n :=
  Nat.div_lt_iff_lt_mul (by omega) |>.mpr (by omega)

/-- The spec admission predicate fails on a LimiterState's windows exactly
when one of the two any-loops of the Go code finds a violating window. -/
theorem checkAdmit_state_false_iff (st : LimiterState) (tokens : Int) :
    checkAdmitSpec (stateWindows st) tokens = false ↔
      (st.slidingWindows.any (fun w => w.count + tokens > w.limit) = true ∨
       st.fixedWindow.any (fun w => w.count + tokens > w.limit) = true) := by
  simp only [checkAdmitSpec, stateWindows, List.all_eq_false, List.mem_append,
    List.mem_map, List.any_eq_true, decide_eq_true_eq, gt_iff_lt, not_le]
  constructor
  · rintro ⟨x, hmem, hx⟩
    rcases hmem with ⟨w, hw, rfl⟩ | ⟨w, hw, rfl⟩
    · exact Or.inl ⟨w, hw, by simpa using hx⟩
    · exact Or.inr ⟨w, hw, by simpa using hx⟩
  · rintro (⟨w, hw, hlt⟩ | ⟨w, hw, hlt⟩)
    · exact ⟨(w.count, w.limit), Or.inl ⟨w, hw, rfl⟩, by simpa using hlt⟩
    · exact ⟨(w.count, w.limit), Or.inr ⟨w, hw, rfl⟩, by simpa using hlt⟩

/-! ## Claims -/

/-- C1 counterexample: the INCRBY variant does not preserve the window
invariant even for a single committed operation: with window1 stored at
its limit of 500 and the other two keys absent, every window starts with
count ≤ limit, yet the skipped pipeline read-back (redis.Nil) takes all
three counts as 0, the call is admitted, and INCRBY pushes window1 to
501 > 500. -/
theorem c1_counterexample_incrby_mixed_absent_overshoots :
    windows3Inv ⟨some 500, none, none⟩ ∧
    (updateLimiterState2 ⟨some 500, none, none⟩ 1).1 = .ok () ∧
    (updateLimiterState2 ⟨some 500, none, none⟩ 1).2 =
      ⟨some 501, some 1, some 1⟩ ∧
    ¬ windows3Inv (incrbyRun [1] ⟨some 500, none, none⟩) :=
  ⟨by decide, rfl, rfl, by decide⟩

/-- C1 amended: starting from a limiter state in which every window's
count is at most its limit, any sequence of committed check-and-increment
operations of the Lua script and of the TiKV pessimistic transaction keeps
every window's persisted count at or below that window's limit; the INCRBY
variant does so provided all three of its window keys are present, since
an absent key makes its pipeline read-back treat every count as zero. -/
theorem c1_amended_committed_sequences_preserve_window_limits :
    (∀ (ops : List Int) (kv : GarnetKV),
      garnetInv kv → garnetInv (garnetRun ops kv)) ∧
    (∀ (n : Nat) (store : Option LimiterState2),
      tikvInv store → tikvInv (tikvRun n store)) ∧
    (∀ (ops : List Int) (st : Windows3),
      windows3AllPresent st → windows3Inv st →
      windows3Inv (incrbyRun ops st)) := by
  refine ⟨?_, ?_, ?_⟩
  · intro ops
    induction ops with
    | nil => intro kv h; exact h
    | cons t rest ih =>
      intro kv h
      exact ih _ (garnetStep_inv kv t h)
  · intro n
    induction n with
    | zero => intro store h; exact h
    | succ k ih =>
      intro store h
      exact tikvStep_inv _ (ih store h)
  · intro ops
    induction ops with
    | nil => intro st _ h; exact h
    | cons t rest ih =>
      intro st hp h
      obtain ⟨hpnext, hnext⟩ := incrbyStep_inv st t hp h
      exact ih _ hpnext hnext

/-- Witness for the amended C1 at concrete inputs. -/
theorem c1_witness :
    garnetInv ⟨some 499, some 499⟩ ∧
    garnetInv (garnetRun [1, 1, 1] ⟨some 499, some 499⟩) ∧
    tikvInv (some ⟨99, 100⟩) ∧ tikvInv (tikvRun 5 (some ⟨99, 100⟩)) ∧
    windows3AllPresent ⟨some 500, some 0, some 0⟩ ∧
    windows3Inv ⟨some 500, some 0, some 0⟩ ∧
    windows3Inv (incrbyRun [1, 1] ⟨some 500, some 0, some 0⟩) :=
  ⟨by decide,
   c1_amended_committed_sequences_preserve_window_limits.1 [1, 1, 1] _
     (by decide),
   by decide,
   c1_amended_committed_sequences_preserve_window_limits.2.1 5 _ (by decide),
   by decide, by decide,
   c1_amended_committed_sequences_preserve_window_limits.2.2 [1, 1] _
     (by decide) (by decide)⟩

/-- C7: each strategy's inline limit check is the spec's CheckAdmit
predicate: the request is admitted iff every window satisfies count +
amount ≤ limit, and a single failing window vetoes it (Lua script, WATCH
strategy, Olric lock variant, and, at its fixed amount 1, the TiKV
transaction). -/
theorem c7_admission_predicate_is_checkAdmit :
    (∀ (kv : GarnetKV) (inc lim : Int),
      (checkAndIncrement kv inc lim).1.success = true ↔
        checkAdmitSpec [(luaGet kv.sliding, lim), (luaGet kv.fixed, lim)] inc
          = true) ∧
    (∀ (st : LimiterState) (tokens : Int),
      update3Attempt false false false (some st) tokens = .txFailed ↔
        checkAdmitSpec (stateWindows st) tokens = false) ∧
    (∀ (store : Option Int) (amount : Int),
      (incrementWithLock incrCleanEnv store amount).result = .rejected ↔
        checkAdmitSpec [(store.getD 0, olricLimit)] amount = false) ∧
    (∀ (s : LimiterState2),
      (updateLimiterState8Attempt tikvCleanEnv (some s)).result
          = .limitReached ↔
        checkAdmitSpec [(s.count, s.limit)] 1 = false) := by
  refine ⟨?_, ?_, ?_, ?_⟩
  · intro kv inc lim
    simp only [checkAndIncrement]
    split_ifs with hov
    · simp only [Bool.false_eq_true, false_iff, checkAdmitSpec, List.all_cons,
        List.all_nil, Bool.and_true, Bool.and_eq_true, decide_eq_true_eq]
      rintro ⟨h1, h2⟩
      rcases hov with h | h <;> omega
    · simp only [true_iff, checkAdmitSpec, List.all_cons, List.all_nil,
        Bool.and_true, Bool.and_eq_true, decide_eq_true_eq]
      push_neg at hov
      exact ⟨hov.1, hov.2⟩
  · intro st tokens
    rw [checkAdmit_state_false_iff]
    simp only [update3Attempt, Bool.false_eq_true, if_false]
    split_ifs with h1 h2 <;> simp_all
  · intro store amount
    simp only [incrementWithLock, incrCleanEnv]
    split_ifs with h1 <;>
      simp_all [checkAdmitSpec, not_le, not_lt]
  · intro s
    simp only [updateLimiterState8Attempt, tikvCleanEnv]
    split_ifs with h1 <;>
      simp_all [checkAdmitSpec, not_le, not_lt] <;> omega

/-- When the initial counters already overflow for the requested amount,
every run of the updateLimiterState5 loop leaves the store untouched: the
reject return precedes both Incr calls and retried iterations re-read the
same counters. -/
theorem update5LoopFrom_overflow (tokens : Int) :
    ∀ (fuel i : Nat) (envs : Nat → U5Env) (st : U5State),
      st.sliding.getD 0 + tokens > 500 ∨ st.fixed.getD 0 + tokens > 500 →
      (update5LoopFrom envs tokens i fuel st).2 = st := by
  intro fuel
  induction fuel with
  | zero => intro i envs st _; rfl
  | succ k ih =>
    intro i envs st h
    simp only [update5LoopFrom]
    cases hg : (envs i).getSliding with
    | quorumErr => simp only [update5Iteration, hg]; exact ih (i + 1) envs st h
    | otherErr => simp [update5Iteration, hg]
    | ok =>
      cases hf : (envs i).getFixed with
      | quorumErr =>
        simp only [update5Iteration, hg, hf]
        exact ih (i + 1) envs st h
      | otherErr => simp [update5Iteration, hg, hf]
      | ok => simp [update5Iteration, hg, hf, if_pos h]

/-- C3: a request refused because a window would exceed its limit leaves
every stored window count unchanged: the Lua script returns the unchanged
counters with a failure flag, and the Olric two-counter variant rejects
before either Incr, so a read after the rejection equals a read before the
attempt. -/
theorem c3_rejection_leaves_every_window_unchanged :
    (∀ (kv : GarnetKV) (inc lim : Int),
      luaGet kv.sliding + inc > lim ∨ luaGet kv.fixed + inc > lim →
      (checkAndIncrement kv inc lim).2 = kv ∧
      (checkAndIncrement kv inc lim).1.success = false) ∧
    (∀ (envs : Nat → U5Env) (st : U5State) (tokens : Int),
      st.sliding.getD 0 + tokens > 500 ∨ st.fixed.getD 0 + tokens > 500 →
      (updateLimiterState5 envs st tokens).2 = st) ∧
    (∀ (st : U5State) (tokens : Int),
      st.sliding.getD 0 + tokens > 500 ∨ st.fixed.getD 0 + tokens > 500 →
      (updateLimiterState5 (fun _ => u5CleanEnv) st tokens).1 =
        .rejected (st.sliding.getD 0) (st.fixed.getD 0)) := by
  refine ⟨?_, ?_, ?_⟩
  · intro kv inc lim h
    simp [checkAndIncrement, if_pos h]
  · intro envs st tokens h
    exact update5LoopFrom_overflow tokens 5 0 envs st h
  · intro st tokens h
    simp [updateLimiterState5, update5LoopFrom, update5Iteration, u5CleanEnv,
      if_pos h]

/-- Witness for C3 at a concrete two-window state that overflows. -/
theorem c3_witness :
    (luaGet (some 500) + 1 > limit3 ∨ luaGet (some 0) + 1 > limit3) ∧
    (checkAndIncrement ⟨some 500, some 0⟩ 1 limit3).2 = ⟨some 500, some 0⟩ ∧
    (updateLimiterState5 (fun _ => u5CleanEnv) ⟨some 500, some 0⟩ 1).2 =
      ⟨some 500, some 0⟩ ∧
    (updateLimiterState5 (fun _ => u5CleanEnv) ⟨some 500, some 0⟩ 1).1 =
      .rejected 500 0 :=
  ⟨by decide,
   (c3_rejection_leaves_every_window_unchanged.1 ⟨some 500, some 0⟩ 1 limit3
     (by decide)).1,
   c3_rejection_leaves_every_window_unchanged.2.1 (fun _ => u5CleanEnv)
     ⟨some 500, some 0⟩ 1 (by decide),
   c3_rejection_leaves_every_window_unchanged.2.2 ⟨some 500, some 0⟩ 1
     (by decide)⟩

/-- C6: every exit path of one updateLimiterState8 attempt that began a
transaction ends it, by commit exactly on the success path and by rollback
everywhere else; in particular the limit-reached rejection path rolls back
without committing and leaves the stored value unchanged. -/
theorem c6_every_exit_commits_or_rolls_back :
    ∀ (env : TikvAttemptEnv) (store : Option LimiterState2),
      (env.beginOk = true →
        (updateLimiterState8Attempt env store).disp = .committed ∨
        (updateLimiterState8Attempt env store).disp = .rolledBack) ∧
      ((updateLimiterState8Attempt env store).disp = .committed ↔
        (updateLimiterState8Attempt env store).result = .success) ∧
      ((updateLimiterState8Attempt env store).result = .limitReached →
        (updateLimiterState8Attempt env store).disp = .rolledBack ∧
        (updateLimiterState8Attempt env store).store = store) := by
  intro env store
  obtain ⟨b, l, g, s, c⟩ := env
  cases b <;> cases l <;> cases g <;> cases s <;> cases c <;> cases store <;>
    simp [updateLimiterState8Attempt] <;> split_ifs <;> simp_all

/-- Witness for C6: a committed-state attempt at the limit rolls back with
the store untouched. -/
theorem c6_witness :
    ((updateLimiterState8Attempt tikvCleanEnv (some ⟨100, 100⟩)).disp
        = .committed ∨
     (updateLimiterState8Attempt tikvCleanEnv (some ⟨100, 100⟩)).disp
        = .rolledBack) ∧
    (updateLimiterState8Attempt tikvCleanEnv (some ⟨100, 100⟩)).disp
        = .rolledBack ∧
    (updateLimiterState8Attempt tikvCleanEnv (some ⟨100, 100⟩)).store
        = some ⟨100, 100⟩ :=
  ⟨(c6_every_exit_commits_or_rolls_back tikvCleanEnv (some ⟨100, 100⟩)).1 rfl,
   (c6_every_exit_commits_or_rolls_back tikvCleanEnv (some ⟨100, 100⟩)).2.2 rfl⟩

/-- A state whose single sliding window is exactly at its limit. -/
def update3StateAtLimit : LimiterState := ⟨[⟨500, 500, 0⟩], [⟨500, 500, 0⟩]⟩

/-- C2 (code bug): when the limit check of the WATCH strategy fails, the
closure returns redis.TxFailedErr, the very error value the outer loop of
UpdateLimiterState3 retries on, so the CheckAdmit failure is not terminal:
the loop re-enters, and since a rejection changes nothing the same outcome
repeats and the call is still running after any number of iterations. -/
theorem c2_watch_strategy_retries_checkAdmit_failure :
    update3Attempt false false false (some update3StateAtLimit) 1
      = .txFailed ∧
    update3ShouldRetry
      (update3Attempt false false false (some update3StateAtLimit) 1)
      = true ∧
    update3Run (fun _ => update3Attempt false false false
      (some update3StateAtLimit) 1) 1000 = none := by
  refine ⟨rfl, rfl, ?_⟩
  have hconst : (fun _ : Nat => update3Attempt false false false
      (some update3StateAtLimit) 1) = fun _ => .txFailed := by
    funext _; rfl
  rw [hconst]
  exact update3RunFrom_txFailed_none 1000 0

/-- C4 counterexample: under an unbroken sequence of conflicting outcomes
the UpdateLimiterState3 retry loop never returns: no retry bound exists
after which a retry-exhausted Failed result is produced. -/
theorem c4_counterexample_no_retry_bound :
    ¬ ∃ n, (update3Run (fun _ => .txFailed) n).isSome = true := by
  rintro ⟨n, hn⟩
  rw [update3Run, update3RunFrom_txFailed_none n 0] at hn
  simp at hn

/-- What the WATCH loop hands back for the outcome that ends it. -/
def update3Return : Update3Outcome → Option Update3Ret
  | .txFailed => none
  | .ok st => some (.committed st)
  | .err m => some (.failed m)

/-- C4 amended: the WATCH strategy retries conflicts without any bound and
has no retry-exhausted failure: a call is still running after n iterations
whenever the first n attempts all conflicted, and returns at iteration
n + 1 exactly the result of the first non-conflicting attempt. -/
theorem c4_amended_retries_until_first_nonconflict :
    ∀ (outcomes : Nat → Update3Outcome) (n : Nat),
      (∀ m, m < n → outcomes m = .txFailed) →
      outcomes n ≠ .txFailed →
      update3Run outcomes n = none ∧
      update3Run outcomes (n + 1) = update3Return (outcomes n) := by
  intro outcomes n hall hn
  constructor
  · have h0 := update3RunFrom_skip outcomes n 0 0
      (fun m hm => by simpa using hall m hm)
    simpa [update3Run] using h0
  · have h1 := update3RunFrom_skip outcomes n 0 1
      (fun m hm => by simpa using hall m hm)
    cases ho : outcomes n with
    | txFailed => exact absurd ho hn
    | ok st => simp_all [update3Run, update3RunFrom, update3Return]
    | err m => simp_all [update3Run, update3RunFrom, update3Return]

/-- An outcome sequence with one conflict followed by a fatal error. -/
def c4DemoOutcomes : Nat → Update3Outcome :=
  fun m => if m = 0 then .txFailed else .err "commit error"

/-- Witness for the amended C4: one conflict, then the loop returns the
first non-conflicting attempt's result at iteration two. -/
theorem c4_amended_witness :
    c4DemoOutcomes 1 ≠ .txFailed ∧
    update3Run c4DemoOutcomes 1 = none ∧
    update3Run c4DemoOutcomes 2 = update3Return (c4DemoOutcomes 1) := by
  have h := c4_amended_retries_until_first_nonconflict c4DemoOutcomes 1
    (fun m hm => by
      have hm0 : m = 0 := by omega
      subst hm0; rfl)
    (by decide)
  exact ⟨by decide, h.1, h.2⟩

/-- A two-window state far from its limits, for the mutex fallthrough. -/
def mutexDemoState : LimiterState := ⟨[⟨0, 500, 0⟩], [⟨0, 500, 0⟩]⟩

/-- C5 (code bug): when all five SETNX attempts find the lock held, the
acquisition loop of updateLimiterStateWithLock exhausts its budget and
falls through with no check that the lock was obtained: no lock-timeout
failure is returned and the read-check-write critical section executes,
here committing an increment, without the lock; the Olric variant, by
contrast, returns before its critical section when acquisition fails. -/
theorem c5_lock_timeout_falls_into_critical_section :
    acquireLock (fun _ => .busy) = .proceed ∧
    (updateLimiterStateWithLock (fun _ => .busy) false false true 0
      (some mutexDemoState) 1).executedCritical = true ∧
    (updateLimiterStateWithLock (fun _ => .busy) false false true 0
      (some mutexDemoState) 1).result = .ok () ∧
    (updateLimiterStateWithLock (fun _ => .busy) false false true 0
      (some mutexDemoState) 1).store = some (applyTokens mutexDemoState 1) ∧
    (incrementWithLock ⟨false, false, false⟩ (some 0) 1).enteredCritical
      = false ∧
    (incrementWithLock ⟨false, false, false⟩ (some 0) 1).result
      = .lockFailed :=
  ⟨rfl, rfl, rfl, rfl, rfl, rfl⟩

/-- C8 counterexample: the TiKV pessimistic strategy does not substitute a
default state for an absent key: with every store operation succeeding and
no stored value, updateLimiterState8 rolls back and returns a
key-not-found error instead of proceeding. -/
theorem c8_counterexample_tikv_fails_on_absent_key :
    updateLimiterState8Attempt tikvCleanEnv none =
      ⟨.error "key not found", .rolledBack, none⟩ := rfl

/-- C8 amended: on an absent stored state the WATCH strategy proceeds with
the default empty-window state, the SETNX mutex critical section behaves
as if the default 0/500 two-window state were stored, and the Lua, INCRBY
and Olric-lock variants read the missing counters as 0; the TiKV
pessimistic strategy alone fails with a key-not-found error instead. -/
theorem c8_amended_absent_state_defaults_except_tikv :
    (∀ tokens : Int, update3Attempt false false false none tokens
      = .ok ⟨[], []⟩) ∧
    (∀ (putOk : Bool) (now tokens : Int),
      (mutexCritical false false putOk now none tokens).1 =
        (mutexCritical false false putOk now (some (defaultLockState now))
          tokens).1) ∧
    (∀ inc lim : Int,
      (checkAndIncrement ⟨none, none⟩ inc lim).1 =
        (checkAndIncrement ⟨some 0, some 0⟩ inc lim).1) ∧
    (∀ tokens : Int,
      (updateLimiterState2 ⟨none, none, none⟩ tokens).1 =
        (updateLimiterState2 ⟨some 0, some 0, some 0⟩ tokens).1) ∧
    (∀ (env : IncrEnv) (amount : Int),
      (incrementWithLock env none amount).result =
        (incrementWithLock env (some 0) amount).result) ∧
    (updateLimiterState8Attempt tikvCleanEnv none).result
      = .error "key not found" := by
  refine ⟨fun tokens => rfl, ?_, ?_, ?_, ?_, rfl⟩
  · intro putOk now tokens
    by_cases hs : ∃ w ∈ (defaultLockState now).slidingWindows,
        w.limit < w.count + tokens
    · simp [mutexCritical, List.any_eq_true, hs]
    · by_cases hf : ∃ w ∈ (defaultLockState now).fixedWindow,
          w.limit < w.count + tokens
      · simp [mutexCritical, List.any_eq_true, hs, hf]
      · by_cases hp : putOk = true <;>
          simp [mutexCritical, List.any_eq_true, hs, hf, hp]
  · intro inc lim
    simp only [checkAndIncrement, luaGet, Option.getD_none, Option.getD_some]
    split_ifs <;> rfl
  · intro tokens
    simp only [updateLimiterState2, Option.getD_none, Option.getD_some]
    split_ifs <;> rfl
  · intro env amount
    simp only [incrementWithLock, Option.getD_none, Option.getD_some]
    split_ifs <;> rfl

/-- C9: for every non-empty latency list the statistics phase reports as
p95 exactly the element at index floor(0.95 * count) of the latencies in
ascending order: any sorted rearrangement of the samples agrees there. -/
theorem c9_p95_is_sorted_element_at_floor_index :
    ∀ (latencies sorted : List Int),
      latencies ≠ [] →
      sorted.Perm latencies →
      List.Sorted (· ≤ ·) sorted →
      ∃ stats, computeStats latencies = some stats ∧
        sorted[latencies.length * 95 / 100]? = some stats.p95Latency := by
  intro latencies sorted hne hperm hsorted
  have hs : sorted = List.insertionSort (· ≤ ·) latencies :=
    List.eq_of_perm_of_sorted
      (hperm.trans (List.perm_insertionSort (· ≤ ·) latencies).symm)
      hsorted (List.sorted_insertionSort (· ≤ ·) latencies)
  subst hs
  have hn : 0 < latencies.length := List.length_pos.mpr hne
  have hidx : latencies.length * 95 / 100 <
      (List.insertionSort (· ≤ ·) latencies).length := by
    rw [(List.perm_insertionSort (· ≤ ·) latencies).length_eq]
    exact p95Index_lt _ hn
  have hx := List.getElem?_eq_getElem hidx
  simp only [computeStats, hx]
  exact ⟨_, rfl, rfl⟩

/-- Witness for C9 on a concrete three-sample list. -/
theorem c9_witness :
    ([30, 10, 20] : List Int) ≠ [] ∧
    ([10, 20, 30] : List Int).Perm [30, 10, 20] ∧
    List.Sorted (· ≤ ·) ([10, 20, 30] : List Int) ∧
    (∃ stats, computeStats [30, 10, 20] = some stats ∧
      ([10, 20, 30] : List Int)[([30, 10, 20] : List Int).length * 95 / 100]?
        = some stats.p95Latency) :=
  ⟨by decide, by decide, by decide,
   c9_p95_is_sorted_element_at_floor_index [30, 10, 20] [10, 20, 30]
     (by decide) (by decide) (by decide)⟩

/-- C10: the statistics phase is partial exactly at the empty sample list:
with zero recorded latencies the p95 indexing of the empty sorted slice
(and, behind it, the division of the total by the zero sample count) has
no value, while every non-empty sample list yields a defined statistics
record. -/
theorem c10_stats_defined_iff_some_sample :
    computeStats [] = none ∧
    ∀ latencies : List Int, latencies ≠ [] →
      (computeStats latencies).isSome = true := by
  constructor
  · rfl
  · intro latencies hne
    have hn : 0 < latencies.length := List.length_pos.mpr hne
    have hidx : latencies.length * 95 / 100 <
        (List.insertionSort (· ≤ ·) latencies).length := by
      rw [(List.perm_insertionSort (· ≤ ·) latencies).length_eq]
      exact p95Index_lt _ hn
    have hx := List.getElem?_eq_getElem hidx
    simp only [computeStats, hx, Option.isSome_some]

/-- Witness for C10 on a one-sample list. -/
theorem c10_witness :
    ([5] : List Int) ≠ [] ∧ (computeStats [5]).isSome = true :=
  ⟨by decide, c10_stats_defined_iff_some_sample.2 [5] (by decide)⟩

end KvEval
